/-
Verification of the Paradelala homelab-builder repository.

This file gives a shallow embedding, in Lean 4, of the parts of the
repository that the specification's claims are about:

* `ServiceRecommender` (homelab-builder/agents/service_recommender.py):
  the service catalog and the `recommend` pipeline with its helpers
  `_analyze_resources`, `_get_core_services`, `_get_optional_services`,
  `_configure_proxy`, `_configure_security`, `_configure_backup`,
  `_configure_monitoring`.
* `Configurator` (src/installer/configurator.py): the service/volume keys
  emitted by `generate_docker_compose`, and `_generate_wireguard_key`.
* `TunnelManager` (homelab-builder/proxy/tunnel_manager.py): `setup` with
  its outer `try/except`, `_setup_wireguard`, `_generate_wireguard_client`,
  `_create_wireguard_server_config`, `_generate_wireguard_key`.
* `ServiceDeployer._generate_wireguard_key`
  (homelab-builder/deployment/deployer.py).
* `ConfigManager` (homelab-builder/utils/config_manager.py): `save_config`,
  `load_config`, `backup_config`.

Python dict/JSON data is modelled by the inductive type `JVal` (objects are
association lists with string keys, as produced by `json.load`).  The dicts
whose field structure the code relies on (scan data, survey data, the
recommendation record, the service catalog entries) are modelled by Lean
structures mirroring exactly the keys the code reads, with `Option` for
keys that `.get` defaults.  Numeric resource amounts are modelled by `Rat`
so that fractional gigabyte values compare the way Python floats do.
Exceptions are modelled by `Except String`; external effects (the `wg`
binary, the filesystem, the public-ip lookup) are passed in explicitly as
an environment value.
-/
import Mathlib

/-- A JSON value as produced by `json.load`: objects are association lists of
string keys in insertion order, mirroring a Python dict. -/
inductive JVal where
  | null : JVal
  | bool (b : Bool) : JVal
  | num (n : Int) : JVal
  | str (s : String) : JVal
  | arr (xs : List JVal) : JVal
  | obj (kvs : List (String × JVal)) : JVal
  deriving Repr

namespace JVal

/-- First-match association-list lookup, the read semantics of a Python dict
with unique keys. -/
def lookupKey : List (String × JVal) → String → Option JVal
  | [], _ => none
  | (k, v) :: rest, key => if k = key then some v else lookupKey rest key

/-- Python dict assignment `d[key] = v`: replace the value in place when the
key is present, append at the end otherwise. -/
def setKey : List (String × JVal) → String → JVal → List (String × JVal)
  | [], key, v => [(key, v)]
  | (k, w) :: rest, key, v =>
      if k = key then (key, v) :: rest else (k, w) :: setKey rest key v

end JVal

/-! ## ConfigManager (homelab-builder/utils/config_manager.py)

The config directory is modelled as a map from filename to the JSON object
stored in that file.  `json.dump` followed by `json.load` on a JSON object is
the identity on `JVal.obj`, so saving writes the object itself into the map.
The timestamp `datetime.now().isoformat()` is passed in as a parameter. -/

/-- The filesystem under `/opt/homelab/configs`: JSON object per filename. -/
def ConfigStore := String → Option (List (String × JVal))

namespace ConfigManager

/-- The `_metadata` value that `save_config` inserts: creation timestamp and
version `1.0.0`. -/
def metadataVal (now_iso : String) : JVal :=
  .obj [("created_at", .str now_iso), ("version", .str "1.0.0")]

/-- Models `ConfigManager.save_config`: sets `config[_metadata]` and writes the
resulting object to `config_dir / filename` as JSON.  Returns the updated
store (the path string it returns in Python is immaterial here). -/
def save_config (config : List (String × JVal)) (filename : String)
    (now_iso : String) (st : ConfigStore) : ConfigStore :=
  let config' := JVal.setKey config "_metadata" (metadataVal now_iso)
  fun f => if f = filename then some config' else st f

/-- Models `ConfigManager.load_config`: returns `None` when the file does not exist,
otherwise the parsed JSON object. -/
def load_config (filename : String) (st : ConfigStore) :
    Option (List (String × JVal)) :=
  st filename

/-- Models `ConfigManager.backup_config`: raises `FileNotFoundError` when the file
does not exist, otherwise copies it under `backups/` and returns the backup
path.  The copy's filesystem effect is immaterial to the claims; the returned
value is the backup path built from the timestamp. -/
def backup_config (filename : String) (timestamp : String) (st : ConfigStore) :
    Except String String :=
  match st filename with
  | none => .error ("Config file " ++ filename ++ " not found")
  | some _ => .ok ("/opt/homelab/configs/backups/" ++ filename ++ "_backup_" ++ timestamp)

end ConfigManager

/-! ## ServiceRecommender (homelab-builder/agents/service_recommender.py)

Catalog entries mirror `_load_service_catalog` field by field.  The scan and
survey dicts are mirrored by structures whose `Option` fields model keys the
code reads with `.get` and a default.  `media_details` is modelled by the
`str()` rendering of that dict, which is all the code inspects of it. -/

/-- The `resources` sub-dict of a catalog entry. -/
structure ResourceReq where
  cpu : String
  memory : String
  disk : String
  deriving Repr, DecidableEq

/-- One entry of the service catalog. -/
structure ServiceEntry where
  name : String
  category : String
  purpose : String
  resources : ResourceReq
  features : List String
  difficulty : String
  deriving Repr, DecidableEq

namespace ServiceRecommender

/-- Models `ServiceRecommender._load_service_catalog`, key by key. -/
def _load_service_catalog : List (String × ServiceEntry) :=
  [ ("jellyfin",
     { name := "Jellyfin", category := "media",
       purpose := "Open-source media server",
       resources := ⟨"2 cores", "2GB", "1GB"⟩,
       features := ["transcoding", "multi-user", "mobile-apps"],
       difficulty := "easy" }),
    ("plex",
     { name := "Plex", category := "media",
       purpose := "Popular media server with great apps",
       resources := ⟨"2 cores", "2GB", "1GB"⟩,
       features := ["transcoding", "multi-user", "mobile-apps", "plex-pass"],
       difficulty := "easy" }),
    ("gitlab",
     { name := "GitLab", category := "development",
       purpose := "Complete DevOps platform",
       resources := ⟨"4 cores", "4GB", "10GB"⟩,
       features := ["git", "ci-cd", "container-registry", "issue-tracking"],
       difficulty := "medium" }),
    ("gitea",
     { name := "Gitea", category := "development",
       purpose := "Lightweight Git service",
       resources := ⟨"1 core", "512MB", "1GB"⟩,
       features := ["git", "issue-tracking", "lightweight"],
       difficulty := "easy" }),
    ("code-server",
     { name := "Code Server", category := "development",
       purpose := "VS Code in the browser",
       resources := ⟨"2 cores", "2GB", "1GB"⟩,
       features := ["ide", "extensions", "remote-development"],
       difficulty := "easy" }),
    ("home-assistant",
     { name := "Home Assistant", category := "automation",
       purpose := "Open-source home automation platform",
       resources := ⟨"2 cores", "2GB", "5GB"⟩,
       features := ["integrations", "automations", "dashboards"],
       difficulty := "medium" }),
    ("pihole",
     { name := "Pi-hole", category := "privacy",
       purpose := "Network-wide ad blocker",
       resources := ⟨"1 core", "512MB", "1GB"⟩,
       features := ["ad-blocking", "dns-server", "statistics"],
       difficulty := "easy" }),
    ("adguard",
     { name := "AdGuard Home", category := "privacy",
       purpose := "Network-wide ad and tracker blocker",
       resources := ⟨"1 core", "512MB", "1GB"⟩,
       features := ["ad-blocking", "dns-server", "parental-control"],
       difficulty := "easy" }),
    ("wireguard",
     { name := "WireGuard", category := "privacy",
       purpose := "Modern VPN server",
       resources := ⟨"1 core", "256MB", "100MB"⟩,
       features := ["vpn", "fast", "secure"],
       difficulty := "medium" }),
    ("vaultwarden",
     { name := "Vaultwarden", category := "privacy",
       purpose := "Bitwarden-compatible password manager",
       resources := ⟨"1 core", "256MB", "1GB"⟩,
       features := ["password-manager", "encryption", "multi-device"],
       difficulty := "easy" }),
    ("nextcloud",
     { name := "Nextcloud", category := "storage",
       purpose := "Self-hosted cloud storage",
       resources := ⟨"2 cores", "2GB", "2GB"⟩,
       features := ["file-sync", "collaboration", "apps"],
       difficulty := "medium" }),
    ("syncthing",
     { name := "Syncthing", category := "storage",
       purpose := "Continuous file synchronization",
       resources := ⟨"1 core", "512MB", "100MB"⟩,
       features := ["p2p-sync", "encryption", "cross-platform"],
       difficulty := "easy" }),
    ("uptime-kuma",
     { name := "Uptime Kuma", category := "monitoring",
       purpose := "Modern uptime monitoring",
       resources := ⟨"1 core", "256MB", "500MB"⟩,
       features := ["uptime-monitoring", "notifications", "status-pages"],
       difficulty := "easy" }),
    ("prometheus",
     { name := "Prometheus", category := "monitoring",
       purpose := "Metrics collection and alerting",
       resources := ⟨"1 core", "1GB", "5GB"⟩,
       features := ["metrics", "alerting", "time-series"],
       difficulty := "hard" }),
    ("grafana",
     { name := "Grafana", category := "monitoring",
       purpose := "Metrics visualization",
       resources := ⟨"1 core", "512MB", "1GB"⟩,
       features := ["dashboards", "visualization", "alerts"],
       difficulty := "medium" }),
    ("authelia",
     { name := "Authelia", category := "security",
       purpose := "Authentication and authorization server",
       resources := ⟨"1 core", "256MB", "100MB"⟩,
       features := ["2fa", "sso", "ldap"],
       difficulty := "hard" }),
    ("crowdsec",
     { name := "CrowdSec", category := "security",
       purpose := "Collaborative security engine",
       resources := ⟨"1 core", "512MB", "500MB"⟩,
       features := ["ids", "community-blocklists", "api"],
       difficulty := "medium" }),
    ("nginx-proxy-manager",
     { name := "Nginx Proxy Manager", category := "proxy",
       purpose := "Easy reverse proxy with GUI",
       resources := ⟨"1 core", "256MB", "500MB"⟩,
       features := ["reverse-proxy", "ssl", "gui"],
       difficulty := "easy" }),
    ("traefik",
     { name := "Traefik", category := "proxy",
       purpose := "Modern reverse proxy with auto-discovery",
       resources := ⟨"1 core", "512MB", "100MB"⟩,
       features := ["reverse-proxy", "ssl", "auto-discovery"],
       difficulty := "medium" }),
    ("duplicati",
     { name := "Duplicati", category := "backup",
       purpose := "Backup software with encryption",
       resources := ⟨"1 core", "512MB", "1GB"⟩,
       features := ["encryption", "cloud-support", "scheduling"],
       difficulty := "easy" }),
    ("restic",
     { name := "Restic", category := "backup",
       purpose := "Fast, secure backup program",
       resources := ⟨"1 core", "256MB", "100MB"⟩,
       features := ["encryption", "deduplication", "snapshots"],
       difficulty := "medium" }) ]

/-- Models `self.service_catalog[key]`: first-match lookup in the catalog.  Every key
the code subscripts is present, so the (never reached) default matters not. -/
def catGet (cat : List (String × ServiceEntry)) (key : String) : ServiceEntry :=
  (cat.lookup key).getD
    { name := "", category := "", purpose := "", resources := ⟨"", "", ""⟩,
      features := [], difficulty := "" }

end ServiceRecommender

namespace ServiceRecommender

/-- Models `scan_data['environment']['memory']` as read by `_analyze_resources`. -/
structure MemoryData where
  available_gb : Option Rat
  deriving Repr, DecidableEq

/-- Models `scan_data['environment']['disk']` as read by `_analyze_resources`. -/
structure DiskData where
  free_gb : Option Rat
  deriving Repr, DecidableEq

/-- Models `scan_data['environment']['docker']` as read by `_analyze_resources`. -/
structure DockerData where
  installed : Option Bool
  deriving Repr, DecidableEq

/-- Models `scan_data['environment']` as read by `_analyze_resources`. -/
structure EnvData where
  cpu_count : Option Int
  memory : Option MemoryData
  disk : Option DiskData
  docker : Option DockerData
  deriving Repr, DecidableEq

/-- The scan dict: only the `environment` key is ever read. -/
structure ScanData where
  environment : Option EnvData
  deriving Repr, DecidableEq

/-- Models `survey_data['dev_details']` as read by `_get_core_services`. -/
structure DevDetails where
  tools : Option (List String)
  deriving Repr, DecidableEq

/-- Models `survey_data['privacy_details']` as read by `_get_core_services`. -/
structure PrivacyDetails where
  services : Option (List String)
  deriving Repr, DecidableEq

/-- Models `survey_data['monitoring']` as read by the recommender. -/
structure MonitoringData where
  level : Option String
  alerts : Option Bool
  alert_methods : Option (List String)
  deriving Repr, DecidableEq

/-- Models `survey_data['backup_preference']` as read by the recommender. -/
structure BackupPref where
  strategy : Option String
  frequency : Option String
  deriving Repr, DecidableEq

/-- Models `survey_data['external_access']` as read by `_configure_proxy`;
`needed` carries the truthiness of the stored value. -/
structure ExternalAccess where
  needed : Option Bool
  method : Option String
  deriving Repr, DecidableEq

/-- Models `survey_data['home_server']` as read by `_configure_proxy`;
`exists'` carries the truthiness of the `exists` key. -/
structure HomeServer where
  exists' : Option Bool
  connection_type : Option String
  deriving Repr, DecidableEq

/-- The survey dict: exactly the keys the recommender reads.  `media_details`
is the `str()` rendering of that sub-dict (the code only does a substring
test on it); `none` stands for an absent key, whose `.get` default `{}`
renders to a string without `plex-pass` in it. -/
structure SurveyData where
  primary_use : Option String
  media_details : Option String
  dev_details : Option DevDetails
  privacy_details : Option PrivacyDetails
  monitoring : Option MonitoringData
  backup_preference : Option BackupPref
  external_access : Option ExternalAccess
  home_server : Option HomeServer
  security_level : Option String
  deriving Repr, DecidableEq

/-- Python `needle in haystack` on strings (needle non-empty). -/
def pyInStr (needle haystack : String) : Bool :=
  (haystack.splitOn needle).length ≥ 2

/-- The result dict of `_analyze_resources`. -/
structure Resources where
  cpu_cores : Int
  memory_gb : Rat
  disk_gb : Rat
  docker_available : Bool
  deriving Repr, DecidableEq

/-- Models `ServiceRecommender._analyze_resources`: the chain of `.get` calls with
defaults 1, 1, 10 and False. -/
def _analyze_resources (scan_data : ScanData) : Resources :=
  { cpu_cores := (scan_data.environment.bind (·.cpu_count)).getD 1
    memory_gb := ((scan_data.environment.bind (·.memory)).bind (·.available_gb)).getD 1
    disk_gb := ((scan_data.environment.bind (·.disk)).bind (·.free_gb)).getD 10
    docker_available := ((scan_data.environment.bind (·.docker)).bind (·.installed)).getD false }

/-- Models `ServiceRecommender._get_core_services`: a reverse proxy first (Traefik
above 4 GB of memory, Nginx Proxy Manager otherwise), then the services of
the primary use case.  Python's successive `append`s are rendered as list
concatenation in the same order. -/
def _get_core_services (cat : List (String × ServiceEntry)) (primary_use : String)
    (survey_data : SurveyData) (resources : Resources) : List ServiceEntry :=
  let proxy :=
    if resources.memory_gb > 4 then catGet cat "traefik"
    else catGet cat "nginx-proxy-manager"
  let rest :=
    if primary_use = "media_server" then
      if pyInStr "plex-pass" (survey_data.media_details.getD "") then
        [catGet cat "plex"]
      else [catGet cat "jellyfin"]
    else if primary_use = "development" then
      (if resources.memory_gb > 6 then [catGet cat "gitlab"] else [catGet cat "gitea"]) ++
      (if "Code Server" ∈ ((survey_data.dev_details.bind (·.tools)).getD []) then
        [catGet cat "code-server"]
      else [])
    else if primary_use = "home_automation" then
      [catGet cat "home-assistant"]
    else if primary_use = "privacy_security" then
      (if "Ad Blocker" ∈ ((survey_data.privacy_details.bind (·.services)).getD []) then
        [catGet cat "pihole"] else []) ++
      (if "VPN Server" ∈ ((survey_data.privacy_details.bind (·.services)).getD []) then
        [catGet cat "wireguard"] else []) ++
      (if "Password Manager" ∈ ((survey_data.privacy_details.bind (·.services)).getD []) then
        [catGet cat "vaultwarden"] else [])
    else if primary_use = "file_storage" then
      if resources.memory_gb > 3 then [catGet cat "nextcloud"]
      else [catGet cat "syncthing"]
    else []
  proxy :: rest

/-- Models `ServiceRecommender._get_optional_services`: monitoring services, then
security services, then the backup service. -/
def _get_optional_services (cat : List (String × ServiceEntry))
    (survey_data : SurveyData) (resources : Resources) : List ServiceEntry :=
  let level := survey_data.monitoring.bind (·.level)
  let monitoring :=
    if level = some "Basic uptime monitoring" then [catGet cat "uptime-kuma"]
    else if level = some "Detailed metrics and logs" ∨
        level = some "Full observability stack" then
      if resources.memory_gb > 4 then [catGet cat "prometheus", catGet cat "grafana"]
      else [catGet cat "uptime-kuma"]
    else []
  let security_level := survey_data.security_level.getD "basic"
  let security :=
    if security_level = "high" ∨ security_level = "maximum" then
      [catGet cat "crowdsec"] ++
      (if resources.memory_gb > 4 then [catGet cat "authelia"] else [])
    else []
  let backup :=
    if (survey_data.backup_preference.bind (·.strategy)) ≠ some "No automated backups" then
      if resources.memory_gb > 2 then [catGet cat "duplicati"] else []
    else []
  monitoring ++ security ++ backup

/-- The dict built by `_configure_proxy`; `auth_required` is only present in
one branch, hence `Option`. -/
structure ProxyConfig where
  type : String
  ssl_provider : String
  tunnel_type : Option String
  auth_required : Option Bool
  deriving Repr, DecidableEq

/-- Models `ServiceRecommender._configure_proxy`. -/
def _configure_proxy (survey_data : SurveyData) : ProxyConfig :=
  let base : ProxyConfig :=
    { type := "nginx", ssl_provider := "letsencrypt",
      tunnel_type := none, auth_required := none }
  let afterExternal :=
    if (survey_data.external_access.bind (·.needed)).getD false then
      let method := (survey_data.external_access.bind (·.method)).getD "VPN"
      if method = "VPN (most secure)" then
        { base with tunnel_type := some "wireguard" }
      else if method = "Cloudflare Tunnel" then
        { base with tunnel_type := some "cloudflare" }
      else if method = "Reverse proxy with authentication" then
        { base with tunnel_type := some "reverse_proxy", auth_required := some true }
      else base
    else base
  if (survey_data.home_server.bind (·.exists')).getD false ∧
      (survey_data.home_server.bind (·.connection_type)) = some "Behind CGNAT" then
    { afterExternal with tunnel_type := some "cloudflare" }
  else afterExternal

/-- The dict built by `_configure_security`. -/
structure SecurityConfig where
  firewall : String
  fail2ban : Bool
  auth_method : String
  ssl_strict : Bool
  deriving Repr, DecidableEq

/-- Models `ServiceRecommender._configure_security`: the base config, overwritten by
the `enhanced` / `high` / `maximum` branches. -/
def _configure_security (survey_data : SurveyData) : SecurityConfig :=
  let security_level := survey_data.security_level.getD "basic"
  let config : SecurityConfig :=
    { firewall := "ufw", fail2ban := false, auth_method := "basic", ssl_strict := false }
  if security_level = "enhanced" then
    { config with fail2ban := true, auth_method := "oauth2" }
  else if security_level = "high" then
    { config with fail2ban := true, auth_method := "2fa", ssl_strict := true }
  else if security_level = "maximum" then
    { config with
      fail2ban := true
      auth_method := "mfa"
      ssl_strict := true
      firewall := "iptables" }
  else config

/-- The dict built by `_configure_backup`. -/
structure BackupConfig where
  enabled : Bool
  strategy : String
  frequency : String
  retention : String
  destinations : List String
  deriving Repr, DecidableEq

/-- Models `ServiceRecommender._configure_backup`. -/
def _configure_backup (survey_data : SurveyData) : BackupConfig :=
  let strategyRead := survey_data.backup_preference.bind (·.strategy)
  let strategy := strategyRead.getD "Local backups only"
  { enabled := !(strategyRead == some "No automated backups")
    strategy := strategy
    frequency := (survey_data.backup_preference.bind (·.frequency)).getD "Daily"
    retention := "30 days"
    destinations :=
      if strategy = "Cloud backups" then ["s3", "backblaze"]
      else if strategy = "Both local and cloud" then ["local", "s3"]
      else ["local"] }

/-- The dict built by `_configure_monitoring`. -/
structure MonitoringConfig where
  enabled : Bool
  solution : String
  alerts_enabled : Bool
  alert_channels : List String
  deriving Repr, DecidableEq

/-- Models `ServiceRecommender._configure_monitoring`. -/
def _configure_monitoring (survey_data : SurveyData) : MonitoringConfig :=
  let level := survey_data.monitoring.bind (·.level)
  { enabled := !(level == some "No monitoring")
    solution :=
      if level = some "Full observability stack" then "prometheus-grafana-loki"
      else if level = some "Detailed metrics and logs" then "prometheus-grafana"
      else "uptime-kuma"
    alerts_enabled := (survey_data.monitoring.bind (·.alerts)).getD false
    alert_channels := (survey_data.monitoring.bind (·.alert_methods)).getD [] }

/-- The `recommendations` dict returned by `recommend`. -/
structure Recommendations where
  core_services : List ServiceEntry
  optional_services : List ServiceEntry
  proxy_config : ProxyConfig
  security_config : SecurityConfig
  backup_config : BackupConfig
  monitoring_config : MonitoringConfig
  deriving Repr, DecidableEq

/-- The instance state: `self.service_catalog`, set once by `__init__`. -/
structure State where
  service_catalog : List (String × ServiceEntry)
  deriving Repr, DecidableEq

/-- Models `ServiceRecommender.__init__`. -/
def init : State :=
  { service_catalog := _load_service_catalog }

/-- Models `ServiceRecommender.recommend`, in state-passing form: the method reads
`self.service_catalog`, performs no I/O, and assigns to neither `self` nor
its arguments, so the post-state is the pre-state. -/
def recommendM (self : State) (scan_data : ScanData) (survey_data : SurveyData) :
    Recommendations × State :=
  let resources := _analyze_resources scan_data
  let primary_use := survey_data.primary_use.getD "general"
  (⟨_get_core_services self.service_catalog primary_use survey_data resources,
    _get_optional_services self.service_catalog survey_data resources,
    _configure_proxy survey_data,
    _configure_security survey_data,
    _configure_backup survey_data,
    _configure_monitoring survey_data⟩, self)

/-- Models `ServiceRecommender().recommend(scan_data, survey_data)` on a freshly
constructed instance, which is how every caller in the repository uses it. -/
def recommend (scan_data : ScanData) (survey_data : SurveyData) : Recommendations :=
  (recommendM init scan_data survey_data).1

end ServiceRecommender

/-! ## Configurator (src/installer/configurator.py)

`generate_docker_compose` builds the compose dict's `services` and `volumes`
mappings by a fixed sequence of membership tests on the selected-services
list; every branch assigns a distinct key, so the mappings' key sequences are
modelled as the concatenation of the branches' contributions in source order.
The values attached to the keys (images, ports, labels, ...) play no role in
the claims about which services are emitted. -/

namespace Configurator

/-- Models `user_config['services']` as read by `generate_docker_compose`. -/
structure ServicesCfg where
  selected : Option (List String)
  deriving Repr, DecidableEq

/-- Models `user_config['networking']`; `use_pihole` carries the truthiness of the
stored value. -/
structure NetworkingCfg where
  use_pihole : Option Bool
  deriving Repr, DecidableEq

/-- The user-config keys `generate_docker_compose` consults to decide which
service and volume keys exist. -/
structure UserConfig where
  services : Option ServicesCfg
  networking : Option NetworkingCfg
  deriving Repr, DecidableEq

/-- Models `self.user_config.get("services", {}).get("selected", [])`. -/
def selectedServices (cfg : UserConfig) : List String :=
  (cfg.services.bind (·.selected)).getD []

/-- Models `self.user_config.get("networking", {}).get("use_pihole")`, truthy. -/
def usePihole (cfg : UserConfig) : Bool :=
  (cfg.networking.bind (·.use_pihole)).getD false

/-- The keys of `compose["services"]` after `generate_docker_compose`, in
assignment order.  The `nginx_proxy`/`traefik` branches are an
`if`/`elif`, so `nginx` shadows `traefik` whenever both are selected. -/
def generate_docker_compose_services (cfg : UserConfig) : List String :=
  let sel := selectedServices cfg
  (if "nginx_proxy" ∈ sel then ["nginx"]
   else if "traefik" ∈ sel then ["traefik"]
   else []) ++
  (if "prometheus" ∈ sel then ["prometheus", "node-exporter"] else []) ++
  (if "grafana" ∈ sel then ["grafana"] else []) ++
  (if "uptime_kuma" ∈ sel then ["uptime-kuma"] else []) ++
  (if "nextcloud" ∈ sel then ["nextcloud"] else []) ++
  (if "vaultwarden" ∈ sel then ["vaultwarden"] else []) ++
  (if "authelia" ∈ sel then ["authelia"] else []) ++
  (if "postgresql" ∈ sel ∨ "nextcloud" ∈ sel then ["postgres"] else []) ++
  (if "redis" ∈ sel then ["redis"] else []) ++
  (if usePihole cfg then ["pihole"] else [])

/-- The keys of `compose["volumes"]` after `generate_docker_compose`, in
assignment order. -/
def generate_docker_compose_volumes (cfg : UserConfig) : List String :=
  let sel := selectedServices cfg
  (if "nginx_proxy" ∈ sel then ["nginx-cache"]
   else if "traefik" ∈ sel then ["traefik-acme"]
   else []) ++
  (if "prometheus" ∈ sel then ["prometheus-data"] else []) ++
  (if "grafana" ∈ sel then ["grafana-data"] else []) ++
  (if "uptime_kuma" ∈ sel then ["uptime-kuma-data"] else []) ++
  (if "nextcloud" ∈ sel then ["nextcloud-data"] else []) ++
  (if "vaultwarden" ∈ sel then ["vaultwarden-data"] else []) ++
  (if "postgresql" ∈ sel ∨ "nextcloud" ∈ sel then ["postgres-data"] else []) ++
  (if "redis" ∈ sel then ["redis-data"] else []) ++
  (if usePihole cfg then ["pihole-etc", "pihole-dnsmasq"] else [])

/-- Models `Configurator._generate_wireguard_key`.  `wgRun` is the outcome of
`subprocess.run(['wg', 'genkey'], ...)`: `some (returncode, stdout)` when the
call returns, `none` when it raises (binary missing).  On a zero return code
the stripped stdout is returned; otherwise the fallback
`self.generate_password(44)` (a locally generated random password). -/
def _generate_wireguard_key (wgRun : Option (Int × String))
    (fallback_password : String) : String :=
  match wgRun with
  | some (rc, out) => if rc = 0 then out.trim else fallback_password
  | none => fallback_password

end Configurator

/-! ## WireGuard key generation in the other two classes (claim C6) -/

namespace TunnelManager

/-- Models `TunnelManager._generate_wireguard_key`: stripped `wg genkey` stdout when
the subprocess call returns (`wgRun = some stdout`), else the fallback
`secrets.token_urlsafe(32)` (a locally generated random token). -/
def _generate_wireguard_key (wgRun : Option String) (token_urlsafe32 : String) : String :=
  match wgRun with
  | some out => out.trim
  | none => token_urlsafe32

end TunnelManager

namespace ServiceDeployer

/-- Models `ServiceDeployer._generate_wireguard_key`: stripped `wg genkey` stdout
when the subprocess call returns, else the constant placeholder
`GENERATE_ME`. -/
def _generate_wireguard_key (wgRun : Option String) : String :=
  match wgRun with
  | some out => out.trim
  | none => "GENERATE_ME"

end ServiceDeployer

/-! ## TunnelManager (homelab-builder/proxy/tunnel_manager.py)

`setup` dispatches on `proxy_config.get('tunnel_type', 'reverse_proxy')`
inside a `try/except Exception` that converts any raised exception into
`{'success': False, 'error': str(e)}`.  The external effects that can raise
inside the `try` block (directory creation, the file writes of each branch,
QR-code generation) are modelled by `Option String` slots of an environment
value: `some e` means that effect raises an exception with message `e`.
`_get_public_ip` and the two key helpers swallow their own failures and so
never raise.  Result dicts are modelled as `JVal` association lists. -/

namespace TunnelManager

/-- The outcomes of the effects `setup` runs inside its `try` block. -/
structure Env where
  /-- Models `self.config_dir.mkdir(parents=True, exist_ok=True)` -/
  mkdir_config_err : Option String
  /-- Models `self.wireguard_dir.mkdir(parents=True, exist_ok=True)` -/
  mkdir_wireguard_err : Option String
  /-- the `open`/`write` calls of `_setup_wireguard` -/
  wg_write_err : Option String
  /-- Models `_generate_wireguard_qr_codes` (only `ImportError` is caught there) -/
  qr_err : Option String
  /-- the `open`/`write` calls of `_setup_cloudflare_tunnel` -/
  cf_write_err : Option String
  /-- the `open`/`write` calls of `_setup_reverse_proxy` -/
  rp_write_err : Option String
  /-- Models `requests.get('https://api.ipify.org')` body, `none` when it raises -/
  public_ip : Option String

/-- Models `TunnelManager._get_public_ip`: its own `try/except` falls back to the
placeholder, so it never raises. -/
def _get_public_ip (env : Env) : String :=
  (env.public_ip.map (·.trim)).getD "YOUR_PUBLIC_IP"

/-- Models `TunnelManager._get_domain`. -/
def _get_domain : String := "homelab.local"

/-- The `proxy_config` dict as read by `setup`, `_setup_reverse_proxy` and
`_create_nginx_reverse_proxy_config`.  For `tunnel_type`, the outer `Option`
is key absence (`.get` falls back to `'reverse_proxy'`) and the inner one a
stored Python `None` (which `.get` returns as such). -/
structure ProxyConfigIn where
  tunnel_type : Option (Option String)
  auth_required : Option Bool
  ssl_provider : Option String
  deriving Repr, DecidableEq

/-- Result dicts, as JSON-like association lists. -/
def RDict := List (String × JVal)

/-- Models `TunnelManager._setup_wireguard`, as the `Except` it raises or the dict
it returns.  Key generation never raises (both helpers swallow), the
sequence that can raise is: `wireguard_dir.mkdir`, the config-file writes,
QR-code generation. -/
def _setup_wireguard_run (env : Env) : Except String RDict :=
  match env.mkdir_wireguard_err with
  | some e => .error e
  | none =>
    match env.wg_write_err with
    | some e => .error e
    | none =>
      match env.qr_err with
      | some e => .error e
      | none => .ok
        [("success", .bool true),
         ("vpn_config_path", .str "/opt/homelab/configs/wireguard"),
         ("public_endpoint", .str (_get_public_ip env ++ ":51820")),
         ("client_configs", .arr ((List.range 5).map
            (fun i => .str ("client" ++ toString (i + 1) ++ ".conf"))))]

/-- Models `TunnelManager._setup_cloudflare_tunnel`. -/
def _setup_cloudflare_tunnel_run (env : Env) : Except String RDict :=
  match env.cf_write_err with
  | some e => .error e
  | none => .ok
    [("success", .bool true),
     ("vpn_config_path", .str "/opt/homelab/configs/tunnel/cloudflared.yml"),
     ("public_endpoint", .str "https://homelab.example.com"),
     ("setup_instructions", .arr
       [.str "1. Install cloudflared on your system",
        .str "2. Run: cloudflared tunnel login",
        .str "3. Create tunnel: cloudflared tunnel create homelab-tunnel",
        .str "4. Copy the credentials.json to /opt/homelab/configs/tunnel/",
        .str "5. Update the hostnames in the configuration",
        .str "6. Start the tunnel service"])]

/-- Models `TunnelManager._setup_ssl_certificates`. -/
def _setup_ssl_certificates : JVal :=
  .obj [("provider", .str "letsencrypt"), ("domain", .str _get_domain),
        ("auto_renew", .bool true)]

/-- Models `TunnelManager._setup_authentication`. -/
def _setup_authentication : JVal :=
  .obj [("method", .str "basic_auth"), ("users", .arr [.str "admin"]),
        ("config_path", .str "/etc/nginx/.htpasswd")]

/-- Models `TunnelManager._setup_reverse_proxy`. -/
def _setup_reverse_proxy_run (env : Env) (proxy_config : ProxyConfigIn) :
    Except String RDict :=
  match env.rp_write_err with
  | some e => .error e
  | none => .ok
    [("success", .bool true),
     ("vpn_config_path", .str "/opt/homelab/configs/tunnel/nginx-reverse-proxy.conf"),
     ("public_endpoint", .str ("https://" ++ _get_domain)),
     ("ssl_config", _setup_ssl_certificates),
     ("auth_config",
      if proxy_config.auth_required.getD false then _setup_authentication
      else .null)]

/-- Models `TunnelManager._setup_basic_proxy`: no filesystem effect, never raises. -/
def _setup_basic_proxy_run (env : Env) : Except String RDict :=
  .ok
    [("success", .bool true),
     ("vpn_config_path", .str "N/A"),
     ("public_endpoint", .str ("http://" ++ _get_public_ip env)),
     ("warning", .str "Basic proxy without encryption - not recommended for production")]

/-- The body of `TunnelManager.setup`'s `try` block. -/
def setupBody (env : Env) (proxy_config : ProxyConfigIn) : Except String RDict :=
  match env.mkdir_config_err with
  | some e => .error e
  | none =>
    match proxy_config.tunnel_type.getD (some "reverse_proxy") with
    | some s =>
      if s = "wireguard" then _setup_wireguard_run env
      else if s = "cloudflare" then _setup_cloudflare_tunnel_run env
      else if s = "reverse_proxy" then _setup_reverse_proxy_run env proxy_config
      else _setup_basic_proxy_run env
    | none => _setup_basic_proxy_run env

/-- Models `TunnelManager.setup`: the `try/except Exception` wrapper.  Its Lean type
is already exception-free; an internal exception becomes the failure dict. -/
def setup (env : Env) (proxy_config : ProxyConfigIn) : RDict :=
  match setupBody env proxy_config with
  | .ok d => d
  | .error e => [("success", .bool false), ("error", .str e)]

/-! ### The WireGuard address plan (claim C10)

`_generate_wireguard_client` and `_create_wireguard_server_config` are pure
given the generated keys; `keys n` supplies the (private, public) pair the
two key helpers return for client `n`. -/

/-- A dotted-quad IPv4 address. -/
structure IPv4 where
  a : Nat
  b : Nat
  c : Nat
  d : Nat
  deriving Repr, DecidableEq

/-- Render a dotted quad. -/
def IPv4.render (ip : IPv4) : String :=
  toString ip.a ++ "." ++ toString ip.b ++ "." ++ toString ip.c ++ "." ++ toString ip.d

/-- Split a character list at dots (statement-side helper for parsing the
addresses the code renders into config text). -/
def splitDots : List Char → List (List Char)
  | [] => [[]]
  | c :: rest =>
    let r := splitDots rest
    if c = '.' then [] :: r
    else
      match r with
      | [] => [[c]]
      | g :: gs => (c :: g) :: gs

/-- Read a non-empty digit group as a number. -/
def natOfDigits : List Char → Option Nat
  | [] => none
  | cs =>
    cs.foldl (fun acc c =>
      acc.bind (fun n => if c.isDigit then some (n * 10 + (c.toNat - 48)) else none))
      (some 0)

/-- Parse a dotted quad (used only to state subnet membership of the
addresses the code renders into config text). -/
def IPv4.parse (s : String) : Option IPv4 :=
  match (splitDots s.data).map natOfDigits with
  | [some a, some b, some c, some d] => some ⟨a, b, c, d⟩
  | _ => none

/-- Two addresses lie in the same /24 network. -/
def IPv4.sameSlash24 (x y : IPv4) : Bool :=
  x.a = y.a ∧ x.b = y.b ∧ x.c = y.c

/-- The server interface address `10.13.13.1` (of `10.13.13.1/24`). -/
def serverAddress : IPv4 := ⟨10, 13, 13, 1⟩

/-- The dict `_generate_wireguard_client` returns. -/
structure WGClient where
  id : Nat
  public_key : String
  ip : String
  config : String
  deriving Repr, DecidableEq

/-- The client config text rendered by `_generate_wireguard_client`. -/
def clientConfigText (client_private_key client_ip server_public_key endpoint : String) :
    String :=
  "[Interface]\nPrivateKey = " ++ client_private_key ++
  "\nAddress = " ++ client_ip ++ "/32\nDNS = 10.13.13.1\n\n[Peer]\nPublicKey = " ++
  server_public_key ++ "\nEndpoint = " ++ endpoint ++
  ":51820\nAllowedIPs = 0.0.0.0/0\nPersistentKeepalive = 25\n"

/-- Models `TunnelManager._generate_wireguard_client`: address
`f"10.13.13.{client_id + 1}"` with mask `/32`. -/
def _generate_wireguard_client (keys : Nat → String × String) (endpoint : String)
    (client_id : Nat) (server_public_key : String) : WGClient :=
  let client_ip := "10.13.13." ++ toString (client_id + 1)
  { id := client_id
    public_key := (keys client_id).2
    ip := client_ip
    config := clientConfigText (keys client_id).1 client_ip server_public_key endpoint }

/-- The clients list built by `_setup_wireguard`:
`for i in range(5): clients.append(self._generate_wireguard_client(i + 1, ...))`. -/
def setupWireguardClients (keys : Nat → String × String) (endpoint : String)
    (server_public_key : String) : List WGClient :=
  (List.range 5).map (fun i => _generate_wireguard_client keys endpoint (i + 1) server_public_key)

/-- One `[Peer]` section of the server config. -/
structure Peer where
  public_key : String
  allowed_ips : String
  deriving Repr, DecidableEq

/-- The `[Peer]` sections `_create_wireguard_server_config` appends: one per
client, `AllowedIPs = {client['ip']}/32`. -/
def serverConfigPeers (clients : List WGClient) : List Peer :=
  clients.map (fun client => ⟨client.public_key, client.ip ++ "/32"⟩)

/-- Render one `[Peer]` section. -/
def peerSection (p : Peer) : String :=
  "\n[Peer]\nPublicKey = " ++ p.public_key ++ "\nAllowedIPs = " ++ p.allowed_ips ++ "\n"

/-- Models `TunnelManager._create_wireguard_server_config`: the `[Interface]` header
followed by the peer sections. -/
def _create_wireguard_server_config (server_private_key : String)
    (clients : List WGClient) : String :=
  "[Interface]\nPrivateKey = " ++ server_private_key ++
  "\nAddress = 10.13.13.1/24\nListenPort = 51820\nPostUp = iptables -A FORWARD -i wg0 -j ACCEPT; iptables -t nat -A POSTROUTING -o eth0 -j MASQUERADE\nPostDown = iptables -D FORWARD -i wg0 -j ACCEPT; iptables -t nat -D POSTROUTING -o eth0 -j MASQUERADE\n\n" ++
  String.join ((serverConfigPeers clients).map peerSection)

end TunnelManager

/-- C6 as stated: in every code path a needed WireGuard private key is the
stripped stdout of an invocation of the `wg` binary (`wg genkey`), for each
of the three `_generate_wireguard_key` implementations. -/
def C6_claim_every_path_delegates : Prop :=
  (∀ (wgRun : Option String) (tok : String), ∃ out,
    wgRun = some out ∧ TunnelManager._generate_wireguard_key wgRun tok = out.trim) ∧
  (∀ (wgRun : Option (Int × String)) (pw : String), ∃ rc out,
    wgRun = some (rc, out) ∧ rc = 0 ∧
    Configurator._generate_wireguard_key wgRun pw = out.trim) ∧
  (∀ (wgRun : Option String), ∃ out,
    wgRun = some out ∧ ServiceDeployer._generate_wireguard_key wgRun = out.trim)

/-- C2 as stated, for the cited public operations: no public operation
propagates an exception, in particular `ConfigManager.backup_config` always
returns normally. -/
def C2_claim_no_propagation : Prop :=
  ∀ (filename timestamp : String) (st : ConfigStore),
    ∃ path, ConfigManager.backup_config filename timestamp st = .ok path

/-! ## Theorems for the claims -/

open ServiceRecommender in
/-- C1: for every scan and survey dict, `ServiceRecommender.recommend` returns
a non-empty `core_services` list whose first element is the Traefik catalog
entry when `scan_data['environment']['memory']['available_gb']` (default 1)
is strictly greater than 4, and the Nginx Proxy Manager entry otherwise. -/
theorem C1_recommend_core_proxy (scan_data : ScanData) (survey_data : SurveyData) :
    0 < (recommend scan_data survey_data).core_services.length ∧
    (recommend scan_data survey_data).core_services.head? =
      some (if ((scan_data.environment.bind (·.memory)).bind (·.available_gb)).getD 1 > 4
        then catGet _load_service_catalog "traefik"
        else catGet _load_service_catalog "nginx-proxy-manager") := by
  constructor
  · simp [recommend, recommendM, _get_core_services]
  · simp [recommend, recommendM, _get_core_services, _analyze_resources, init]

open ServiceRecommender in
/-- C3: the Recommend stage is pure.  `recommend`'s body contains no I/O call
and no assignment to `self` or its arguments, so its embedding is the
state-passing function `recommendM`; on any two instances as built by
`__init__` and equal argument dicts it returns equal recommendation dicts,
and the post-state equals the pre-state (no mutation between calls). -/
theorem C3_recommend_deterministic (a b : State) (ha : a = init) (hb : b = init)
    (scan1 scan2 : ScanData) (survey1 survey2 : SurveyData)
    (hscan : scan1 = scan2) (hsurvey : survey1 = survey2) :
    recommendM a scan1 survey1 = recommendM b scan2 survey2 ∧
    (recommendM a scan1 survey1).2 = a := by
  subst ha hb hscan hsurvey
  exact ⟨rfl, rfl⟩

open ServiceRecommender in
/-- Witness for C3 at a concrete pair of equal inputs. -/
theorem C3_recommend_deterministic_witness :
    recommendM init ⟨none⟩ ⟨none, none, none, none, none, none, none, none, none⟩ =
      recommendM init ⟨none⟩ ⟨none, none, none, none, none, none, none, none, none⟩ ∧
    (recommendM init ⟨none⟩ ⟨none, none, none, none, none, none, none, none, none⟩).2 = init :=
  C3_recommend_deterministic init init rfl rfl ⟨none⟩ ⟨none⟩
    ⟨none, none, none, none, none, none, none, none, none⟩
    ⟨none, none, none, none, none, none, none, none, none⟩ rfl rfl

open ServiceRecommender in
/-- C4: `_configure_security` is determined solely by
`survey_data['security_level']`; `enhanced`, `high` and `maximum` yield the
enumerated configs and every other value (including an absent key) yields the
base config `firewall ufw, fail2ban False, auth_method basic,
ssl_strict False`. -/
theorem C4_configure_security_cases (survey_data : SurveyData) :
    (survey_data.security_level = some "enhanced" →
      _configure_security survey_data = ⟨"ufw", true, "oauth2", false⟩) ∧
    (survey_data.security_level = some "high" →
      _configure_security survey_data = ⟨"ufw", true, "2fa", true⟩) ∧
    (survey_data.security_level = some "maximum" →
      _configure_security survey_data = ⟨"iptables", true, "mfa", true⟩) ∧
    (survey_data.security_level ≠ some "enhanced" →
      survey_data.security_level ≠ some "high" →
      survey_data.security_level ≠ some "maximum" →
      _configure_security survey_data = ⟨"ufw", false, "basic", false⟩) ∧
    (∀ survey2 : SurveyData, survey_data.security_level = survey2.security_level →
      _configure_security survey_data = _configure_security survey2) := by
  refine ⟨?_, ?_, ?_, ?_, ?_⟩
  · intro h
    simp [_configure_security, h]
  · intro h
    simp [_configure_security, h]
  · intro h
    simp [_configure_security, h]
  · intro h1 h2 h3
    rcases hsl : survey_data.security_level with _ | s
    · simp [_configure_security, hsl]
    · rw [hsl] at h1 h2 h3
      simp only [ne_eq, Option.some.injEq] at h1 h2 h3
      simp [_configure_security, hsl, h1, h2, h3]
  · intro survey2 h
    simp only [_configure_security]
    rw [h]

open ServiceRecommender in
/-- Witness for C4: the `maximum` branch at a concrete survey. -/
theorem C4_configure_security_witness :
    _configure_security ⟨none, none, none, none, none, none, none, none, some "maximum"⟩ =
      ⟨"iptables", true, "mfa", true⟩ :=
  (C4_configure_security_cases
    ⟨none, none, none, none, none, none, none, none, some "maximum"⟩).2.2.1 rfl

open Configurator in
/-- C5: `generate_docker_compose` emits at most one of the `nginx` and
`traefik` services; when both `nginx_proxy` and `traefik` are selected the
`if`/`elif` keeps only `nginx` (with its `nginx-cache` volume), and `traefik`
is emitted exactly when it is selected and `nginx_proxy` is not. -/
theorem C5_compose_single_reverse_proxy (user_config : UserConfig) :
    ¬("nginx" ∈ generate_docker_compose_services user_config ∧
      "traefik" ∈ generate_docker_compose_services user_config) ∧
    ("nginx_proxy" ∈ selectedServices user_config ∧
        "traefik" ∈ selectedServices user_config →
      "nginx" ∈ generate_docker_compose_services user_config ∧
      "nginx-cache" ∈ generate_docker_compose_volumes user_config ∧
      "traefik" ∉ generate_docker_compose_services user_config) ∧
    ("traefik" ∈ generate_docker_compose_services user_config ↔
      "traefik" ∈ selectedServices user_config ∧
      "nginx_proxy" ∉ selectedServices user_config) := by
  by_cases h1 : "nginx_proxy" ∈ selectedServices user_config <;>
    by_cases h2 : "traefik" ∈ selectedServices user_config <;>
      simp [generate_docker_compose_services, generate_docker_compose_volumes, h1, h2]

open Configurator in
/-- Witness for C5: both reverse proxies selected, only `nginx` emitted. -/
theorem C5_compose_single_reverse_proxy_witness :
    "nginx" ∈ generate_docker_compose_services ⟨some ⟨some ["nginx_proxy", "traefik"]⟩, none⟩ ∧
    "nginx-cache" ∈ generate_docker_compose_volumes ⟨some ⟨some ["nginx_proxy", "traefik"]⟩, none⟩ ∧
    "traefik" ∉ generate_docker_compose_services ⟨some ⟨some ["nginx_proxy", "traefik"]⟩, none⟩ :=
  (C5_compose_single_reverse_proxy ⟨some ⟨some ["nginx_proxy", "traefik"]⟩, none⟩).2.1
    ⟨by decide, by decide⟩

/-- Helper for C8/C2: when `setup`'s `try` block returns normally, the
returned dict carries `'success': True`. -/
theorem TunnelManager.setupBody_ok_success (env : TunnelManager.Env)
    (proxy_config : TunnelManager.ProxyConfigIn) (d : TunnelManager.RDict)
    (h : TunnelManager.setupBody env proxy_config = .ok d) :
    JVal.lookupKey d "success" = some (.bool true) := by
  unfold TunnelManager.setupBody at h
  cases h0 : env.mkdir_config_err <;> simp [h0] at h
  rcases ht : proxy_config.tunnel_type.getD (some "reverse_proxy") with _ | s <;>
    simp [ht] at h
  · simp only [TunnelManager._setup_basic_proxy_run, Except.ok.injEq] at h
    simp [← h, JVal.lookupKey]
  · split_ifs at h
    · unfold TunnelManager._setup_wireguard_run at h
      cases h1 : env.mkdir_wireguard_err <;> simp [h1] at h
      cases h2 : env.wg_write_err <;> simp [h2] at h
      cases h3 : env.qr_err <;> simp [h3] at h
      simp [← h, JVal.lookupKey]
    · unfold TunnelManager._setup_cloudflare_tunnel_run at h
      cases h1 : env.cf_write_err <;> simp [h1] at h
      simp [← h, JVal.lookupKey]
    · unfold TunnelManager._setup_reverse_proxy_run at h
      cases h1 : env.rp_write_err <;> simp [h1] at h
      simp [← h, JVal.lookupKey]
    · simp only [TunnelManager._setup_basic_proxy_run, Except.ok.injEq] at h
      simp [← h, JVal.lookupKey]

open TunnelManager in
/-- C8: `TunnelManager.setup` never raises (its embedding's return type is a
plain dict, the `try/except Exception` converting every internal exception):
the returned dict always carries a `success` key, and when the `try` block
raises `e` the result is exactly
`{'success': False, 'error': str(e)}`. -/
theorem C8_setup_never_raises (env : Env) (proxy_config : ProxyConfigIn) :
    (∃ b, JVal.lookupKey (setup env proxy_config) "success" = some (.bool b)) ∧
    (∀ e, setupBody env proxy_config = .error e →
      setup env proxy_config = [("success", .bool false), ("error", .str e)]) := by
  constructor
  · cases hb : setupBody env proxy_config with
    | error e => exact ⟨false, by simp [setup, hb, JVal.lookupKey]⟩
    | ok d =>
      exact ⟨true, by simpa [setup, hb] using setupBody_ok_success env proxy_config d hb⟩
  · intro e hb
    simp [setup, hb]

open TunnelManager in
/-- Witness for C8: an internal exception in the directory creation yields
the failure dict. -/
theorem C8_setup_never_raises_witness :
    setup ⟨some "mkdir failed", none, none, none, none, none, none⟩ ⟨none, none, none⟩ =
      [("success", .bool false), ("error", .str "mkdir failed")] :=
  (C8_setup_never_raises ⟨some "mkdir failed", none, none, none, none, none, none⟩
    ⟨none, none, none⟩).2 "mkdir failed" rfl

/-- C6 counterexample: when the `wg` invocation raises (binary absent,
`wgRun = none`), `TunnelManager._generate_wireguard_key` still produces a key
— the local random fallback — so key generation is not delegated to `wg` in
every code path. -/
theorem C6_counterexample_fallback_key : ¬ C6_claim_every_path_delegates := by
  intro h
  obtain ⟨out, hout, _⟩ := h.1 none "fallback-token"
  exact Option.noConfusion hout

/-- C6 amended: each `_generate_wireguard_key` returns the stripped stdout of
`wg genkey` when the invocation succeeds (for `Configurator`, when it also
exits with code 0), and otherwise falls back to a locally generated value:
`secrets.token_urlsafe(32)` in `TunnelManager`, `generate_password(44)` in
`Configurator`, and the placeholder `GENERATE_ME` in `ServiceDeployer`. -/
theorem C6_amended_keygen_fallback (out tok pw : String) (rc : Int) :
    TunnelManager._generate_wireguard_key (some out) tok = out.trim ∧
    TunnelManager._generate_wireguard_key none tok = tok ∧
    Configurator._generate_wireguard_key (some (rc, out)) pw =
      (if rc = 0 then out.trim else pw) ∧
    Configurator._generate_wireguard_key none pw = pw ∧
    ServiceDeployer._generate_wireguard_key (some out) = out.trim ∧
    ServiceDeployer._generate_wireguard_key none = "GENERATE_ME" :=
  ⟨rfl, rfl, rfl, rfl, rfl, rfl⟩

/-- C2 counterexample: on a store without the file,
`ConfigManager.backup_config` raises `FileNotFoundError` to its caller
rather than swallowing or printing it. -/
theorem C2_counterexample_backup_raises : ¬ C2_claim_no_propagation := by
  intro h
  obtain ⟨path, hp⟩ := h "homelab_config.json" "20240101_000000" (fun _ => none)
  simp [ConfigManager.backup_config] at hp

/-- C2 amended: internal errors are swallowed into returned values — as
`TunnelManager.setup` does — except that `ConfigManager.backup_config`
propagates `FileNotFoundError` to its caller, exactly when the named config
file does not exist. -/
theorem C2_amended_error_handling (filename timestamp : String) (st : ConfigStore)
    (env : TunnelManager.Env) (proxy_config : TunnelManager.ProxyConfigIn) :
    (st filename = none →
      ConfigManager.backup_config filename timestamp st =
        .error ("Config file " ++ filename ++ " not found")) ∧
    (∀ c, st filename = some c →
      ∃ path, ConfigManager.backup_config filename timestamp st = .ok path) ∧
    (∀ e, TunnelManager.setupBody env proxy_config = .error e →
      JVal.lookupKey (TunnelManager.setup env proxy_config) "success" =
        some (.bool false) ∧
      JVal.lookupKey (TunnelManager.setup env proxy_config) "error" =
        some (.str e)) := by
  refine ⟨?_, ?_, ?_⟩
  · intro h
    simp [ConfigManager.backup_config, h]
  · intro c h
    exact ⟨"/opt/homelab/configs/backups/" ++ filename ++ "_backup_" ++ timestamp,
      by simp [ConfigManager.backup_config, h]⟩
  · intro e h
    simp [TunnelManager.setup, h, JVal.lookupKey]

/-- Witness for C2 (amended) at concrete inputs: the missing-file error and
the swallowed `setup` exception. -/
theorem C2_amended_error_handling_witness :
    ConfigManager.backup_config "homelab_config.json" "20240101_000000" (fun _ => none) =
      .error "Config file homelab_config.json not found" ∧
    JVal.lookupKey
      (TunnelManager.setup ⟨some "boom", none, none, none, none, none, none⟩
        ⟨none, none, none⟩) "success" = some (.bool false) :=
  ⟨(C2_amended_error_handling "homelab_config.json" "20240101_000000" (fun _ => none)
      ⟨some "boom", none, none, none, none, none, none⟩ ⟨none, none, none⟩).1 rfl,
   ((C2_amended_error_handling "homelab_config.json" "20240101_000000" (fun _ => none)
      ⟨some "boom", none, none, none, none, none, none⟩ ⟨none, none, none⟩).2.2
     "boom" rfl).1⟩

/-- Looking up the key just set by a Python dict assignment. -/
theorem JVal.lookupKey_setKey_self (kvs : List (String × JVal)) (key : String) (v : JVal) :
    JVal.lookupKey (JVal.setKey kvs key v) key = some v := by
  induction kvs with
  | nil => simp [JVal.setKey, JVal.lookupKey]
  | cons hd tl ih =>
    obtain ⟨k, w⟩ := hd
    by_cases h : k = key
    · simp [JVal.setKey, h, JVal.lookupKey]
    · simp [JVal.setKey, h, JVal.lookupKey, ih]

/-- A Python dict assignment leaves every other key untouched. -/
theorem JVal.lookupKey_setKey_ne (kvs : List (String × JVal)) (key k : String) (v : JVal)
    (h : k ≠ key) : JVal.lookupKey (JVal.setKey kvs key v) k = JVal.lookupKey kvs k := by
  induction kvs with
  | nil => simp [JVal.setKey, JVal.lookupKey, Ne.symm h]
  | cons hd tl ih =>
    obtain ⟨k0, w⟩ := hd
    by_cases h0 : k0 = key
    · subst h0
      simp [JVal.setKey, JVal.lookupKey, Ne.symm h]
    · simp [JVal.setKey, h0, JVal.lookupKey, ih]

open ConfigManager in
/-- C9: `load_config` right after `save_config` returns the saved dict with
exactly the `_metadata` entry (timestamp and version `1.0.0`) set, and every
other key still maps to its original value. -/
theorem C9_save_load_roundtrip (config : List (String × JVal))
    (filename now_iso : String) (st : ConfigStore) :
    load_config filename (save_config config filename now_iso st) =
      some (JVal.setKey config "_metadata" (metadataVal now_iso)) ∧
    JVal.lookupKey (JVal.setKey config "_metadata" (metadataVal now_iso)) "_metadata" =
      some (metadataVal now_iso) ∧
    ∀ k, k ≠ "_metadata" →
      JVal.lookupKey (JVal.setKey config "_metadata" (metadataVal now_iso)) k =
        JVal.lookupKey config k := by
  refine ⟨?_, JVal.lookupKey_setKey_self config "_metadata" (metadataVal now_iso), ?_⟩
  · simp [load_config, save_config]
  · intro k hk
    exact JVal.lookupKey_setKey_ne config "_metadata" k (metadataVal now_iso) hk

/-- Witness for C9 at a one-key config. -/
theorem C9_save_load_roundtrip_witness :
    ConfigManager.load_config "homelab_config.json"
      (ConfigManager.save_config [("a", .num 1)] "homelab_config.json"
        "2024-01-01T00:00:00" (fun _ => none)) =
      some [("a", .num 1), ("_metadata", ConfigManager.metadataVal "2024-01-01T00:00:00")] ∧
    JVal.lookupKey
      (JVal.setKey [("a", .num 1)] "_metadata"
        (ConfigManager.metadataVal "2024-01-01T00:00:00")) "a" = some (.num 1) :=
  ⟨((C9_save_load_roundtrip [("a", .num 1)] "homelab_config.json" "2024-01-01T00:00:00"
      (fun _ => none)).1).trans rfl,
   ((C9_save_load_roundtrip [("a", .num 1)] "homelab_config.json" "2024-01-01T00:00:00"
      (fun _ => none)).2.2 "a" (by decide)).trans rfl⟩

open TunnelManager in
/-- C10: `_setup_wireguard` builds exactly 5 clients whose addresses are the
pairwise-distinct hosts `10.13.13.2` .. `10.13.13.6`, each in the same /24
network as the server interface address `10.13.13.1` and distinct from it,
and the server configuration's `[Peer]` sections are one per client with
`AllowedIPs` equal to the client's address with a `/32` mask. -/
theorem C10_wireguard_address_plan (keys : Nat → String × String)
    (endpoint server_public_key : String) :
    (setupWireguardClients keys endpoint server_public_key).length = 5 ∧
    (setupWireguardClients keys endpoint server_public_key).map (·.ip) =
      ["10.13.13.2", "10.13.13.3", "10.13.13.4", "10.13.13.5", "10.13.13.6"] ∧
    ((setupWireguardClients keys endpoint server_public_key).map (·.ip)).Nodup ∧
    ((setupWireguardClients keys endpoint server_public_key).map (·.ip)).all
      (fun s => match IPv4.parse s with
        | some q => q.sameSlash24 serverAddress && decide (q ≠ serverAddress)
        | none => false) = true ∧
    serverConfigPeers (setupWireguardClients keys endpoint server_public_key) =
      (setupWireguardClients keys endpoint server_public_key).map
        (fun c => ⟨c.public_key, c.ip ++ "/32"⟩) ∧
    (serverConfigPeers (setupWireguardClients keys endpoint server_public_key)).map
        (·.allowed_ips) =
      ["10.13.13.2/32", "10.13.13.3/32", "10.13.13.4/32", "10.13.13.5/32",
       "10.13.13.6/32"] := by
  have hmap : (setupWireguardClients keys endpoint server_public_key).map (·.ip) =
      ["10.13.13.2", "10.13.13.3", "10.13.13.4", "10.13.13.5", "10.13.13.6"] := rfl
  refine ⟨rfl, hmap, ?_, ?_, rfl, rfl⟩
  · rw [hmap]; decide
  · rw [hmap]; decide
